import Mathlib

/-!
# Verification of the mushbackend insight engine (`services/ai_insights.py`)

Shallow embedding of the insight-generation engine. Python floats are
modelled as rationals (`ℚ`), `None`-able fields as `Option`, the database
as explicit lists of records, and the natural-language messages as an
inductive type whose constructors carry exactly the values interpolated
into the corresponding f-string of the source.

Python-specific semantics that are modelled explicitly:
* truthiness of a float (`if x:`) is `x ≠ 0`, and truthiness of an
  optional float is `x ≠ None ∧ x ≠ 0`;
* `round(x, 1)` rounds half to even (banker's rounding) at one decimal;
* `sorted(..., key=..., reverse=...)` is a stable sort; it is modelled by
  `List.insertionSort`, which is likewise stable.
-/

/-- CO2 level: the categorical field, a closed three-value set
(`CO2_level IN ('low','medium','high')` in `models.py`). -/
inductive CO2 where
  | low
  | medium
  | high
  deriving DecidableEq

/-- A row of `daily_observations` (`models.DailyObservation`), restricted to
the fields the engine reads.  `date` is a day index; within one batch dates
are unique, and query results are date-ordered. -/
structure Observation where
  batch_id : Nat
  date : Nat
  ambient_temperature_celsius : Option ℚ
  relative_humidity_percent : Option ℚ
  CO2_level : Option CO2
  light_hours_per_day : Option ℚ
  deriving DecidableEq

/-- A row of `harvests` (`models.Harvest`), restricted to the fields the
engine reads.  The table has `UNIQUE (batch_id, flush_number)`. -/
structure Harvest where
  batch_id : Nat
  flush_number : Nat
  flush_yield_kg : ℚ
  deriving DecidableEq

/-- A row of `batches` (`models.Batch`), restricted to the fields the engine
reads.  `batch_id` is the primary key. -/
structure Batch where
  batch_id : Nat
  substrate_type : String
  deriving DecidableEq

/-- One engine message.  Each constructor stands for one message template of
`services/ai_insights.py`; its arguments are the values interpolated into
that template (before decimal formatting). -/
inductive Msg where
  /-- "Temperature variance detected: ... (range: {min}°C to {max}°C) ..." -/
  | tempVariance (lo hi : ℚ)
  /-- "Average temperature of {avg}°C is below optimal range ..." -/
  | tempBelowOptimal (avg : ℚ)
  /-- "Average temperature of {avg}°C is above optimal range ..." -/
  | tempAboveOptimal (avg : ℚ)
  /-- "Average temperature of {avg}°C is optimal. ..." -/
  | tempOptimal (avg : ℚ)
  /-- "Temperature trend: Increasing from {earlier}°C to {recent}°C ..." -/
  | tempIncreasing (earlier recent : ℚ)
  /-- "Temperature trend: Decreasing from {earlier}°C to {recent}°C ..." -/
  | tempDecreasing (earlier recent : ℚ)
  /-- "Humidity dropped to {value}% on {date}, significantly below ..." -/
  | humidityDropAnomaly (value : ℚ) (date : Nat)
  /-- "Consider increasing humidity to 80.0-90.0% ... Current average: {avg}%." -/
  | humidityBelowOptimal (avg : ℚ)
  /-- "Humidity is above optimal range. ... Current average: {avg}%." -/
  | humidityAboveOptimal (avg : ℚ)
  /-- "Humidity trend: Increasing from {earlier}% to {recent}% ..." -/
  | humidityIncreasing (earlier recent : ℚ)
  /-- "Humidity trend: Decreasing from {earlier}% to {recent}% ..." -/
  | humidityDecreasing (earlier recent : ℚ)
  /-- "CO2 levels remained 'high' for {days} consecutive days, ..." -/
  | co2ConsecutiveHigh (days : Nat)
  /-- "Increase ventilation to reduce CO2 levels. ..." -/
  | increaseVentilation
  /-- "CO2 levels are within acceptable range. ..." -/
  | co2Acceptable
  /-- "Light exposure of {avg} hours/day aligns with best-performing ..." -/
  | lightOptimal (avg : ℚ)
  /-- "Light exposure of {avg} hours/day is below optimal. ..." -/
  | lightBelowOptimal (avg : ℚ)
  /-- "Light exposure of {avg} hours/day is above optimal. ..." -/
  | lightAboveOptimal (avg : ℚ)
  /-- "Early yield underperformance detected: First flush yield ({first} kg)
  is {pct}% below historical average ({avg} kg) for similar batches." -/
  | earlyYieldUnderperformance (firstYield peerAvg pctBelow : ℚ)
  /-- "Yield trend: Second flush ({second} kg) shows significant decline from
  first flush ({first} kg). ..." -/
  | secondFlushDecline (second first : ℚ)
  /-- "Yield trend: Strong second flush performance ({second} kg) relative to
  first flush ({first} kg). ..." -/
  | strongSecondFlush (second first : ℚ)
  /-- "Yield trend: First flush shows promise ({first} kg). ... second flush
  may yield {projLo}-{projHi} kg if conditions remain stable." -/
  | firstFlushPromise (first projLo projHi : ℚ)
  /-- "Projected total yield: {lo}-{hi} kg based on current trajectory." -/
  | projectedTotalYield (lo hi : ℚ)
  /-- "At least 2 batches are required for comparison." -/
  | atLeastTwoRequired
  /-- "Some batches not found: {missing}" -/
  | someBatchesNotFound (missing : Finset Nat)
  /-- "Batch #{bestId} ({bestSub} substrate) outperformed Batch #{worstId}
  ({worstSub}) by {pct}% in total yield." -/
  | outperformed (bestId : Nat) (bestSub : String) (worstId : Nat) (worstSub : String) (pct : ℚ)
  /-- "Higher average humidity ({hi}% vs {lo}%) correlates with better yields
  in this comparison." -/
  | higherHumidityCorrelates (hi lo : ℚ)
  /-- "Temperature variance was lower in Batch #{bid} ({variance}°C),
  suggesting more stable conditions." -/
  | lowerTempVariance (bid : Nat) (variance : ℚ)
  deriving DecidableEq

/-- Result of `_analyze_observations`: the four message lists. -/
structure ObsAnalysis where
  warnings : List Msg
  anomalies : List Msg
  suggestions : List Msg
  trends : List Msg
  deriving DecidableEq

/-- Result of `_analyze_harvests`: warnings, suggestions, trends. -/
structure HarvestAnalysis where
  warnings : List Msg
  suggestions : List Msg
  trends : List Msg
  deriving DecidableEq

/-- One entry of `compare_batches`'s `yield_comparison` list. -/
structure YieldComp where
  batch_id : Nat
  total_yield : ℚ
  flushes : Nat
  deriving DecidableEq

/-- One entry of `compare_batches`'s `average_conditions` list. -/
structure AvgCond where
  batch_id : Nat
  avg_temperature : Option ℚ
  avg_humidity : Option ℚ
  substrate_type : String
  deriving DecidableEq

/-- Result of `compare_batches`. -/
structure CompareResult where
  yield_comparison : List YieldComp
  average_conditions : List AvgCond
  insights : List Msg
  deriving DecidableEq

/-- The database visible to the engine: the three tables as record lists
(`db.query(...)` filters over these). -/
structure DB where
  batches : List Batch
  harvests : List Harvest
  observations : List Observation
  deriving DecidableEq

/-- Python's `sum(l)/len(l)`.  Callers in the source always guard for
non-emptiness before dividing. -/
def mean (l : List ℚ) : ℚ := l.sum / l.length

/-- Python's `max(l)` on a non-empty list (0 as junk value on `[]`,
never used by the embedding on `[]` except where the source guards). -/
def listMax : List ℚ → ℚ
  | [] => 0
  | x :: xs => xs.foldl max x

/-- Python's `min(l)` on a non-empty list (0 as junk value on `[]`). -/
def listMin : List ℚ → ℚ
  | [] => 0
  | x :: xs => xs.foldl min x

/-- Round a rational to the nearest integer, ties to even: the semantics of
Python 3's built-in `round`. -/
def roundHalfEven (q : ℚ) : ℤ :=
  let f := ⌊q⌋
  let r := q - f
  if r < 1/2 then f
  else if 1/2 < r then f + 1
  else if f % 2 = 0 then f else f + 1

/-- Python's `round(q, 1)`. -/
def round1 (q : ℚ) : ℚ := (roundHalfEven (q * 10) : ℚ) / 10

/-- Python's `f"{q:.1f}"` for the non-negative values the engine formats:
one digit after the decimal point. -/
def fmt1 (q : ℚ) : String :=
  let n := roundHalfEven (q * 10)
  toString (n / 10) ++ "." ++ toString (n % 10)

/-- The `"{lo:.1f}-{hi:.1f}"` range text used by the projection messages. -/
def rangeText (lo hi : ℚ) : String := fmt1 lo ++ "-" ++ fmt1 hi

/-- `temps = [o.ambient_temperature_celsius for o in observations if ... is not None]` -/
def temps (observations : List Observation) : List ℚ :=
  observations.filterMap (·.ambient_temperature_celsius)

/-- `humidities = [o.relative_humidity_percent for o in observations if ... is not None]` -/
def humidities (observations : List Observation) : List ℚ :=
  observations.filterMap (·.relative_humidity_percent)

/-- `light_hours = [o.light_hours_per_day for o in observations if ... is not None]` -/
def light_hours (observations : List Observation) : List ℚ :=
  observations.filterMap (·.light_hours_per_day)

/-- `co2_levels = [o.CO2_level for o in observations if ... is not None]` -/
def co2_levels (observations : List Observation) : List CO2 :=
  observations.filterMap (·.CO2_level)

/-- `[o for o in observations if o.relative_humidity_percent and
o.relative_humidity_percent < OPTIMAL_HUMIDITY_MIN]` (line 142).  Python
float truthiness: a present reading of exactly `0.0` is falsy, so it does
NOT pass this filter even though `0.0 < 80.0`. -/
def low_humidity_days (observations : List Observation) : List Observation :=
  observations.filter (fun o =>
    match o.relative_humidity_percent with
    | some h => decide (h ≠ 0 ∧ h < 80)
    | none => false)

/-- Step of the linear scan of `_check_consecutive_high_co2`: state is
`(max_consecutive, current_consecutive)`. -/
def highRunStep (acc : Nat × Nat) (o : Observation) : Nat × Nat :=
  if o.CO2_level = some CO2.high then
    (max acc.1 (acc.2 + 1), acc.2 + 1)
  else (acc.1, 0)

/-- The `max_consecutive` accumulator after scanning all observations.  Note
the scan runs over the full observation sequence: an observation whose
`CO2_level` is missing resets the run. -/
def maxHighRun (observations : List Observation) : Nat :=
  (observations.foldl highRunStep (0, 0)).1

/-- `_check_consecutive_high_co2` (lines 300-312): returns the longest run of
consecutive 'high' readings if it is at least 5, else 0. -/
def check_consecutive_high_co2 (observations : List Observation) : Nat :=
  if 5 ≤ maxHighRun observations then maxHighRun observations else 0

/-- Temperature-variance warning block (lines 98-106). -/
def tempWarningList (ts : List ℚ) : List Msg :=
  if ts ≠ [] then
    let temp_variance := if ts.length > 1 then listMax ts - listMin ts else 0
    if temp_variance > 5 then [.tempVariance (listMin ts) (listMax ts)] else []
  else []

/-- Temperature suggestion block (lines 108-121); optimal range 20.0-24.0. -/
def tempSuggestionList (ts : List ℚ) : List Msg :=
  if ts ≠ [] then
    let avg := mean ts
    if avg < 20 then [.tempBelowOptimal avg]
    else if avg > 24 then [.tempAboveOptimal avg]
    else [.tempOptimal avg]
  else []

/-- Temperature trend block (lines 124-133): last 3 readings vs the first 3
(or all readings before the last 3 when fewer than 6 exist). -/
def tempTrendList (ts : List ℚ) : List Msg :=
  if ts ≠ [] then
    if ts.length ≥ 3 then
      let recent := ts.drop (ts.length - 3)
      let earlier := if ts.length ≥ 6 then ts.take 3 else ts.take (ts.length - 3)
      if earlier ≠ [] then
        let recent_avg := mean recent
        let earlier_avg := mean earlier
        if recent_avg > earlier_avg + 1 then [.tempIncreasing earlier_avg recent_avg]
        else if recent_avg < earlier_avg - 1 then [.tempDecreasing earlier_avg recent_avg]
        else []
      else []
    else []
  else []

/-- Low-humidity anomaly block (lines 141-148): first 3 qualifying days. -/
def humidityAnomalyList (observations : List Observation) : List Msg :=
  if humidities observations ≠ [] then
    ((low_humidity_days observations).take 3).map
      (fun o => .humidityDropAnomaly (o.relative_humidity_percent.getD 0) o.date)
  else []

/-- Humidity suggestion block (lines 150-159); optimal range 80.0-90.0. -/
def humiditySuggestionList (hs : List ℚ) : List Msg :=
  if hs ≠ [] then
    let avg := mean hs
    if avg < 80 then [.humidityBelowOptimal avg]
    else if avg > 90 then [.humidityAboveOptimal avg]
    else []
  else []

/-- Humidity trend block (lines 162-176): last 7 vs first 7 readings. -/
def humidityTrendList (hs : List ℚ) : List Msg :=
  if hs ≠ [] then
    if hs.length ≥ 7 then
      let recent_avg := mean (hs.drop (hs.length - 7))
      let earlier_avg := mean (hs.take 7)
      if recent_avg > earlier_avg + 5 then [.humidityIncreasing earlier_avg recent_avg]
      else if recent_avg < earlier_avg - 5 then [.humidityDecreasing earlier_avg recent_avg]
      else []
    else []
  else []

/-- High-CO2 anomaly block (lines 179-187). -/
def co2AnomalyList (observations : List Observation) : List Msg :=
  if co2_levels observations ≠ [] then
    if 5 ≤ (co2_levels observations).countP (fun l => l = CO2.high) then
      let consecutive_high := check_consecutive_high_co2 observations
      if consecutive_high ≠ 0 then [.co2ConsecutiveHigh consecutive_high] else []
    else []
  else []

/-- CO2 suggestion block (lines 188-193): ventilation suggestion under the
same condition as the anomaly, plus the affirming one. -/
def co2SuggestionList (observations : List Observation) : List Msg :=
  if co2_levels observations ≠ [] then
    (if 5 ≤ (co2_levels observations).countP (fun l => l = CO2.high) then
      if check_consecutive_high_co2 observations ≠ 0 then [.increaseVentilation] else []
     else []) ++
    (if CO2.low ∈ co2_levels observations ∨ CO2.medium ∈ co2_levels observations then
      [.co2Acceptable] else [])
  else []

/-- Light suggestion block (lines 196-211); optimal range 10.0-14.0. -/
def lightSuggestionList (ls : List ℚ) : List Msg :=
  if ls ≠ [] then
    let avg := mean ls
    if 10 ≤ avg ∧ avg ≤ 14 then [.lightOptimal avg]
    else if avg < 10 then [.lightBelowOptimal avg]
    else [.lightAboveOptimal avg]
  else []

/-- `_analyze_observations` (lines 84-218), assembled from the blocks above
in the order the source appends to each list. -/
def analyze_observations (observations : List Observation) : ObsAnalysis where
  warnings := tempWarningList (temps observations)
  anomalies := humidityAnomalyList observations ++ co2AnomalyList observations
  suggestions :=
    tempSuggestionList (temps observations) ++
    humiditySuggestionList (humidities observations) ++
    co2SuggestionList observations ++
    lightSuggestionList (light_hours observations)
  trends :=
    tempTrendList (temps observations) ++
    humidityTrendList (humidities observations)

/-- `flush_yields[1]` of `_analyze_harvests` (lines 246-250): the yields of
the peer harvests with flush number 1, in list order (the dict groups by
flush number preserving encounter order; only key 1 is ever read). -/
def flushOneYields (similar_harvests : List Harvest) : List ℚ :=
  (similar_harvests.filter (fun h => h.flush_number = 1)).map (·.flush_yield_kg)

/-- `_analyze_harvests` (lines 221-297). -/
def analyze_harvests (harvests : List Harvest) (batch : Batch)
    (all_harvests : List Harvest) (all_batches : List Batch) : HarvestAnalysis :=
  if harvests = [] then ⟨[], [], []⟩
  else
    let similar_batches := all_batches.filter (fun b => b.substrate_type = batch.substrate_type)
    let similar_batch_ids := similar_batches.map (·.batch_id)
    let similar_harvests := all_harvests.filter (fun h => h.batch_id ∈ similar_batch_ids)
    let warnings :=
      if similar_harvests ≠ [] then
        match harvests.head? with
        | some h0 =>
          let fy1 := flushOneYields similar_harvests
          if fy1 ≠ [] ∧ h0.flush_number = 1 then
            let avg_first_flush := mean fy1
            let first_flush_yield := h0.flush_yield_kg
            if first_flush_yield < (7/10) * avg_first_flush then
              [.earlyYieldUnderperformance first_flush_yield avg_first_flush
                (((avg_first_flush - first_flush_yield) / avg_first_flush) * 100)]
            else []
          else []
        | none => []
      else []
    -- flush progression (lines 265-276): 0.5 = 1/2, 0.8 = 4/5
    let progression :=
      match harvests with
      | h0 :: h1 :: _ =>
        if h1.flush_yield_kg < h0.flush_yield_kg * (1/2) then
          [.secondFlushDecline h1.flush_yield_kg h0.flush_yield_kg]
        else if h1.flush_yield_kg > h0.flush_yield_kg * (4/5) then
          [.strongSecondFlush h1.flush_yield_kg h0.flush_yield_kg]
        else []
      | _ => []
    -- projection (lines 279-291): fires exactly when one harvest exists;
    -- 0.65 = 13/20, 0.6 = 3/5, 0.8 = 4/5, 1.2 = 6/5
    let projection :=
      match harvests with
      | [h] =>
        let first_flush := h.flush_yield_kg
        let projected_second := first_flush * (13/20)
        let projected_total := first_flush + projected_second + projected_second * (3/5)
        [.firstFlushPromise first_flush projected_second (first_flush * (4/5)),
         .projectedTotalYield projected_total (projected_total * (6/5))]
      | _ => []
    ⟨warnings, [], progression ++ projection⟩

/-- One clause of the summary paragraph of `_generate_summary`; constructor
arguments are the interpolated values. -/
inductive SummaryPart where
  /-- "Batch #{bid}" -/
  | batchHeader (bid : Nat)
  /-- "... has no data yet. Start recording observations and harvests ..." -/
  | noData
  /-- "uses {s} substrate" -/
  | substrateInfo (s : String)
  /-- "with average temperature of {avg}°C" -/
  | avgTempInfo (avg : ℚ)
  /-- "and humidity averaging {avg}%" -/
  | avgHumidityInfo (avg : ℚ)
  /-- "Current yield: {total} kg across {flushes} flush(es)" -/
  | yieldInfo (total : ℚ) (flushes : Nat)
  /-- "Main concerns:" -/
  | mainConcernsHeader
  /-- first warning, lower-cased -/
  | firstWarning (m : Msg)
  /-- first anomaly, lower-cased -/
  | firstAnomaly (m : Msg)
  /-- "shows promising early indicators with stable conditions" -/
  | promisingIndicators
  /-- "Key recommendation: {m}" -/
  | keyRecommendation (m : Msg)
  /-- "Projected total yield: {lo}-{hi} kg based on current trajectory" -/
  | projectedTotal (lo hi : ℚ)
  deriving DecidableEq

/-- Whether the rendered text of a message contains "humidity" or
"temperature" (case-insensitively): the substring test of
`_generate_summary` lines 361-364, evaluated on each fixed template. -/
def mentionsHumidityOrTemperature : Msg → Bool
  | .tempVariance _ _ => true
  | .tempBelowOptimal _ => true
  | .tempAboveOptimal _ => true
  | .tempOptimal _ => true
  | .tempIncreasing _ _ => true
  | .tempDecreasing _ _ => true
  | .humidityDropAnomaly _ _ => true
  | .humidityBelowOptimal _ => true
  | .humidityAboveOptimal _ => true
  | .humidityIncreasing _ _ => true
  | .humidityDecreasing _ _ => true
  | .higherHumidityCorrelates _ _ => true
  | .lowerTempVariance _ _ => true
  | _ => false

/-- `_generate_summary` (lines 315-375), as the list of clauses joined into
the summary paragraph.  The early "no data" return is modelled as
`[batchHeader, noData]` (the source interpolates `summary_parts[0]` into the
fixed no-data sentence). -/
def generate_summary (batch : Batch) (observations : List Observation)
    (harvests : List Harvest) (warnings anomalies suggestions : List Msg) :
    List SummaryPart :=
  if observations = [] ∧ harvests = [] then
    [.batchHeader batch.batch_id, .noData]
  else
    [.batchHeader batch.batch_id] ++
    [.substrateInfo batch.substrate_type] ++
    (if observations ≠ [] then
      (if temps observations ≠ [] then [.avgTempInfo (mean (temps observations))] else []) ++
      (if humidities observations ≠ [] then
        [.avgHumidityInfo (mean (humidities observations))] else [])
     else []) ++
    (if harvests ≠ [] then
      [.yieldInfo ((harvests.map (·.flush_yield_kg)).sum) harvests.length] else []) ++
    (if warnings ≠ [] ∨ anomalies ≠ [] then
      [.mainConcernsHeader] ++
      (match warnings.head? with | some w => [.firstWarning w] | none => []) ++
      (match anomalies.head? with | some a => [.firstAnomaly a] | none => [])
     else [.promisingIndicators]) ++
    (match suggestions with
     | [] => []
     | s0 :: _ =>
       [.keyRecommendation ((suggestions.find? mentionsHumidityOrTemperature).getD s0)]) ++
    -- projection (lines 370-373): 2.5 = 5/2, 1.2 = 6/5
    (match harvests with
     | [h] =>
       let projected := h.flush_yield_kg * (5/2)
       [.projectedTotal projected (projected * (6/5))]
     | _ => [])

/-- Python truthiness of an optional float: the test `if c["avg_humidity"]`
on line 452 and `if avg_temp` / `if avg_humidity` on lines 428-429. -/
def truthyQ : Option ℚ → Bool
  | some q => q != 0
  | none => false

/-- `db.query(models.Harvest).filter(models.Harvest.batch_id == ...)`. -/
def harvestsOfBatch (db : DB) (bid : Nat) : List Harvest :=
  db.harvests.filter (fun h => h.batch_id = bid)

/-- `db.query(models.DailyObservation).filter(... batch_id == ...)`. -/
def obsOfBatch (db : DB) (bid : Nat) : List Observation :=
  db.observations.filter (fun o => o.batch_id = bid)

/-- Non-missing temperatures of one batch, as read by `compare_batches`. -/
def tempsOfBatch (db : DB) (bid : Nat) : List ℚ := temps (obsOfBatch db bid)

/-- Non-missing humidities of one batch, as read by `compare_batches`. -/
def humsOfBatch (db : DB) (bid : Nat) : List ℚ := humidities (obsOfBatch db bid)

/-- Loop body of the yield-comparison loop (lines 402-413).  `sum(...) if
harvests else 0.0` equals the sum, which is 0 on the empty list. -/
def yieldCompFor (db : DB) (b : Batch) : YieldComp where
  batch_id := b.batch_id
  total_yield := ((harvestsOfBatch db b.batch_id).map (·.flush_yield_kg)).sum
  flushes := (harvestsOfBatch db b.batch_id).length

/-- Loop body of the average-conditions loop (lines 416-431).  The guards
`round(avg, 1) if avg else None` use float truthiness: a mean of exactly 0
yields `None`, not `0.0`. -/
def avgCondFor (db : DB) (b : Batch) : AvgCond where
  batch_id := b.batch_id
  avg_temperature :=
    if tempsOfBatch db b.batch_id ≠ [] ∧ mean (tempsOfBatch db b.batch_id) ≠ 0 then
      some (round1 (mean (tempsOfBatch db b.batch_id)))
    else none
  avg_humidity :=
    if humsOfBatch db b.batch_id ≠ [] ∧ mean (humsOfBatch db b.batch_id) ≠ 0 then
      some (round1 (mean (humsOfBatch db b.batch_id)))
    else none
  substrate_type := b.substrate_type

/-- Descending comparison on total yield: `sorted(..., key=lambda x:
x["total_yield"], reverse=True)`. -/
def yieldGE (a b : YieldComp) : Prop := b.total_yield ≤ a.total_yield

/-- Descending comparison on average humidity: `sorted(..., key=lambda x:
x["avg_humidity"], reverse=True)` (the filtered entries all carry a value). -/
def humGE (a b : AvgCond) : Prop := b.avg_humidity.getD 0 ≤ a.avg_humidity.getD 0

/-- Ascending comparison on temperature variance: `sorted(temp_vars,
key=lambda x: x["variance"])`. -/
def varLE (a b : Nat × ℚ) : Prop := a.2 ≤ b.2

instance : DecidableRel yieldGE := fun _ _ => inferInstanceAs (Decidable (_ ≤ _))

instance : DecidableRel humGE := fun _ _ => inferInstanceAs (Decidable (_ ≤ _))

instance : DecidableRel varLE := fun _ _ => inferInstanceAs (Decidable (_ ≤ _))

/-- The best-vs-worst total-yield insight of `compare_batches`
(lines 435-448): only emitted when both extreme totals are positive. -/
def outperformInsight (yield_comparison : List YieldComp)
    (average_conditions : List AvgCond) : List Msg :=
  let yields_sorted := yield_comparison.insertionSort yieldGE
  match yields_sorted.head?, yields_sorted.getLast? with
  | some best, some worst =>
    if best.total_yield > 0 ∧ worst.total_yield > 0 then
      let percentage_diff :=
        ((best.total_yield - worst.total_yield) / worst.total_yield) * 100
      let best_substrate :=
        ((average_conditions.find? (fun c => c.batch_id = best.batch_id)).map
          (·.substrate_type)).getD "Unknown"
      let worst_substrate :=
        ((average_conditions.find? (fun c => c.batch_id = worst.batch_id)).map
          (·.substrate_type)).getD "Unknown"
      [.outperformed best.batch_id best_substrate worst.batch_id
        worst_substrate percentage_diff]
    else []
  | _, _ => []

/-- The humidity-extremes insight of `compare_batches` (lines 450-460).  The
list comprehension `[c for c in average_conditions if c["avg_humidity"]]`
keeps only entries whose `avg_humidity` is TRUTHY (non-null and non-zero). -/
def humidityInsight (average_conditions : List AvgCond) : List Msg :=
  if average_conditions.length ≥ 2 then
    let hum_sorted :=
      (average_conditions.filter (fun c => truthyQ c.avg_humidity)).insertionSort humGE
    if hum_sorted.length ≥ 2 then
      match hum_sorted.head?, hum_sorted.getLast? with
      | some high_hum, some low_hum =>
        [.higherHumidityCorrelates (high_hum.avg_humidity.getD 0)
          (low_hum.avg_humidity.getD 0)]
      | _, _ => []
    else []
  else []

/-- The temperature-stability insight of `compare_batches` (lines 462-478). -/
def tempVarianceInsight (db : DB) (batches : List Batch) : List Msg :=
  let temp_vars := batches.filterMap (fun b =>
    let ts := tempsOfBatch db b.batch_id
    if ts.length > 1 then some (b.batch_id, listMax ts - listMin ts) else none)
  if temp_vars.length ≥ 2 then
    match (temp_vars.insertionSort varLE).head? with
    | some stable => [.lowerTempVariance stable.1 stable.2]
    | none => []
  else []

/-- `compare_batches` (lines 378-484).  Python's `sorted` is a stable sort
and is modelled by the (stable) insertion sort. -/
def compare_batches (batch_ids : List Nat) (db : DB) : CompareResult :=
  if batch_ids.length < 2 then
    ⟨[], [], [.atLeastTwoRequired]⟩
  else
    let batches := db.batches.filter (fun b => b.batch_id ∈ batch_ids)
    if batches.length ≠ batch_ids.length then
      -- `missing = set(batch_ids) - {b.batch_id for b in batches}`
      ⟨[], [], [.someBatchesNotFound
        (batch_ids.toFinset \ (batches.map (·.batch_id)).toFinset)]⟩
    else
      let yield_comparison := batches.map (yieldCompFor db)
      let average_conditions := batches.map (avgCondFor db)
      let insights :=
        if yield_comparison.length ≥ 2 then
          outperformInsight yield_comparison average_conditions
            ++ humidityInsight average_conditions
            ++ tempVarianceInsight db batches
        else []
      ⟨yield_comparison, average_conditions, insights⟩

/-- Recognizer for the temperature-variance warning template. -/
def Msg.isTempVariance : Msg → Bool
  | .tempVariance _ _ => true
  | _ => false

/-- Recognizer for the low-humidity anomaly template. -/
def Msg.isHumidityDrop : Msg → Bool
  | .humidityDropAnomaly _ _ => true
  | _ => false

/-- Recognizer for the consecutive-high-CO2 anomaly template. -/
def Msg.isCO2Consecutive : Msg → Bool
  | .co2ConsecutiveHigh _ => true
  | _ => false

/-- Recognizer for the ventilation suggestion. -/
def Msg.isVentilation : Msg → Bool
  | .increaseVentilation => true
  | _ => false

/-- Recognizer for the early-yield-underperformance warning. -/
def Msg.isEarlyYieldWarning : Msg → Bool
  | .earlyYieldUnderperformance _ _ _ => true
  | _ => false

/-- Recognizer for the humidity-vs-yield comparison insight. -/
def Msg.isHumidityCorrelation : Msg → Bool
  | .higherHumidityCorrelates _ _ => true
  | _ => false

/-- Recognizer for the summary's projected-total-yield clause. -/
def SummaryPart.isProjection : SummaryPart → Bool
  | .projectedTotal _ _ => true
  | _ => false

instance : IsTotal AvgCond humGE :=
  ⟨fun a b => le_total (b.avg_humidity.getD 0) (a.avg_humidity.getD 0)⟩

instance : IsTrans AvgCond humGE :=
  ⟨fun _ _ _ hab hbc => le_trans hbc hab⟩

/-! ## Helper lemmas -/

theorem listMax_singleton (x : ℚ) : listMax [x] = x := rfl

theorem listMin_singleton (x : ℚ) : listMin [x] = x := rfl

theorem foldl_max_bounds (l : List ℚ) (a : ℚ) :
    a ≤ l.foldl max a ∧ ∀ b ∈ l, b ≤ l.foldl max a := by
  induction l generalizing a with
  | nil => simp
  | cons c t ih =>
    refine ⟨le_trans (le_max_left a c) (ih (max a c)).1, ?_⟩
    intro b hb
    rcases List.mem_cons.mp hb with rfl | hb
    · exact le_trans (le_max_right a b) (ih (max a b)).1
    · exact (ih (max a c)).2 b hb

theorem foldl_max_mem (l : List ℚ) (a : ℚ) :
    l.foldl max a = a ∨ l.foldl max a ∈ l := by
  induction l generalizing a with
  | nil => simp
  | cons c t ih =>
    rcases ih (max a c) with h | h
    · rcases max_choice a c with hm | hm
      · exact Or.inl (by rw [List.foldl_cons, h, hm])
      · refine Or.inr (List.mem_cons.mpr (Or.inl ?_))
        rw [List.foldl_cons, h, hm]
    · exact Or.inr (List.mem_cons_of_mem _ h)

theorem le_listMax (l : List ℚ) (b : ℚ) (hb : b ∈ l) : b ≤ listMax l := by
  rcases l with _ | ⟨x, xs⟩
  · cases hb
  · rcases List.mem_cons.mp hb with rfl | hb
    · exact (foldl_max_bounds xs b).1
    · exact (foldl_max_bounds xs x).2 b hb

theorem listMax_mem (l : List ℚ) (hl : l ≠ []) : listMax l ∈ l := by
  rcases l with _ | ⟨x, xs⟩
  · exact absurd rfl hl
  · show xs.foldl max x ∈ x :: xs
    rcases foldl_max_mem xs x with h | h
    · rw [h]; exact List.mem_cons_self x xs
    · exact List.mem_cons_of_mem _ h

theorem foldl_min_bounds (l : List ℚ) (a : ℚ) :
    l.foldl min a ≤ a ∧ ∀ b ∈ l, l.foldl min a ≤ b := by
  induction l generalizing a with
  | nil => simp
  | cons c t ih =>
    refine ⟨le_trans (ih (min a c)).1 (min_le_left a c), ?_⟩
    intro b hb
    rcases List.mem_cons.mp hb with rfl | hb
    · exact le_trans (ih (min a b)).1 (min_le_right a b)
    · exact (ih (min a c)).2 b hb

theorem foldl_min_mem (l : List ℚ) (a : ℚ) :
    l.foldl min a = a ∨ l.foldl min a ∈ l := by
  induction l generalizing a with
  | nil => simp
  | cons c t ih =>
    rcases ih (min a c) with h | h
    · rcases min_choice a c with hm | hm
      · exact Or.inl (by rw [List.foldl_cons, h, hm])
      · refine Or.inr (List.mem_cons.mpr (Or.inl ?_))
        rw [List.foldl_cons, h, hm]
    · exact Or.inr (List.mem_cons_of_mem _ h)

theorem listMin_le (l : List ℚ) (b : ℚ) (hb : b ∈ l) : listMin l ≤ b := by
  rcases l with _ | ⟨x, xs⟩
  · cases hb
  · rcases List.mem_cons.mp hb with rfl | hb
    · exact (foldl_min_bounds xs b).1
    · exact (foldl_min_bounds xs x).2 b hb

theorem listMin_mem (l : List ℚ) (hl : l ≠ []) : listMin l ∈ l := by
  rcases l with _ | ⟨x, xs⟩
  · exact absurd rfl hl
  · show xs.foldl min x ∈ x :: xs
    rcases foldl_min_mem xs x with h | h
    · rw [h]; exact List.mem_cons_self x xs
    · exact List.mem_cons_of_mem _ h

theorem listMax_eq_of (l : List ℚ) (x : ℚ) (hx : x ∈ l) (hub : ∀ y ∈ l, y ≤ x) :
    listMax l = x :=
  le_antisymm (hub _ (listMax_mem l (List.ne_nil_of_mem hx))) (le_listMax l x hx)

theorem listMin_eq_of (l : List ℚ) (x : ℚ) (hx : x ∈ l) (hlb : ∀ y ∈ l, x ≤ y) :
    listMin l = x :=
  le_antisymm (listMin_le l x hx) (hlb _ (listMin_mem l (List.ne_nil_of_mem hx)))

theorem tempWarningList_eq (ts : List ℚ) :
    tempWarningList ts =
      if ts ≠ [] ∧ 5 < listMax ts - listMin ts
      then [Msg.tempVariance (listMin ts) (listMax ts)] else [] := by
  unfold tempWarningList
  rcases ts with _ | ⟨x, xs⟩
  · simp
  · rcases xs with _ | ⟨y, ys⟩
    · simp [listMax_singleton, listMin_singleton]
    · simp [List.length]

theorem low_humidity_days_eq_nil (observations : List Observation)
    (h : humidities observations = []) : low_humidity_days observations = [] := by
  rw [low_humidity_days, List.filter_eq_nil_iff]
  intro o ho
  have hnone : o.relative_humidity_percent = none :=
    List.filterMap_eq_nil_iff.mp h o ho
  simp [hnone]

theorem co2AnomalyList_no_humidity_drop (observations : List Observation) :
    (co2AnomalyList observations).filter Msg.isHumidityDrop = [] := by
  unfold co2AnomalyList
  split_ifs <;> simp [Msg.isHumidityDrop]

theorem humidityAnomalyList_no_co2 (observations : List Observation) :
    (humidityAnomalyList observations).filter Msg.isCO2Consecutive = [] := by
  unfold humidityAnomalyList
  split_ifs with h
  · rw [List.filter_eq_nil_iff]
    intro a ha
    rcases List.mem_map.mp ha with ⟨o, _, rfl⟩
    simp [Msg.isCO2Consecutive]
  · simp

/-- Claim C4 (confirmed): the variance warning list of the observation
analyzer is exactly one `tempVariance` message when the range of the
non-missing temperature readings exceeds 5.0 °C and empty otherwise, and a
single temperature reading never produces it. -/
theorem C4_temperature_variance_warning (observations : List Observation) :
    ((analyze_observations observations).warnings =
      if temps observations ≠ [] ∧ 5 < listMax (temps observations) - listMin (temps observations)
      then [Msg.tempVariance (listMin (temps observations)) (listMax (temps observations))]
      else [])
    ∧ ((temps observations).length = 1 → (analyze_observations observations).warnings = []) := by
  have hw : (analyze_observations observations).warnings
      = tempWarningList (temps observations) := rfl
  constructor
  · rw [hw, tempWarningList_eq]
  · intro h1
    rw [hw, tempWarningList_eq]
    rcases hts : temps observations with _ | ⟨x, xs⟩
    · simp
    · rcases xs with _ | ⟨y, ys⟩
      · simp [listMax_singleton, listMin_singleton]
      · rw [hts] at h1
        simp at h1

/-- Witness for C4 at a concrete observation list with one temperature
reading. -/
theorem C4_witness :
    (temps [⟨1, 0, some 22, none, none, none⟩]).length = 1
    ∧ (analyze_observations [⟨1, 0, some 22, none, none, none⟩]).warnings = [] :=
  ⟨by decide, (C4_temperature_variance_warning [⟨1, 0, some 22, none, none, none⟩]).2 (by decide)⟩

/-- Claim C2 (corrected): the humidity anomalies are exactly the first three
observations whose humidity reading is present, NON-ZERO, and below 80.0%,
each reported with its literal value and date; a present reading of exactly
0.0% is skipped because `o.relative_humidity_percent and ...` uses Python
float truthiness, so the original claim ("every reading below 80.0%") fails
at a 0.0% reading. -/
theorem C2_low_humidity_anomalies (observations : List Observation) :
    ((analyze_observations observations).anomalies.filter Msg.isHumidityDrop =
      ((low_humidity_days observations).take 3).map
        (fun o => Msg.humidityDropAnomaly (o.relative_humidity_percent.getD 0) o.date))
    ∧ (∀ o, o ∈ low_humidity_days observations ↔
        o ∈ observations ∧ ∃ h, o.relative_humidity_percent = some h ∧ h ≠ 0 ∧ h < 80) := by
  constructor
  · have ha : (analyze_observations observations).anomalies
        = humidityAnomalyList observations ++ co2AnomalyList observations := rfl
    rw [ha, List.filter_append, co2AnomalyList_no_humidity_drop, List.append_nil]
    unfold humidityAnomalyList
    split_ifs with h
    · rw [List.filter_map]
      congr 1
      rw [List.filter_eq_self]
      intro o _
      simp [Msg.isHumidityDrop]
    · push_neg at h
      rw [low_humidity_days_eq_nil observations h]
      simp
  · intro o
    rw [low_humidity_days, List.mem_filter]
    rcases hr : o.relative_humidity_percent with _ | q
    · simp [hr]
    · simp [hr]

/-- Counterexample for C2 as stated: a single observation with a present
humidity reading of exactly 0.0%, which is below 80.0%, yields no anomaly. -/
theorem C2_counterexample :
    (Observation.mk 1 5 none (some 0) none none).relative_humidity_percent = some 0
    ∧ (0 : ℚ) < 80
    ∧ (analyze_observations [Observation.mk 1 5 none (some 0) none none]).anomalies = [] :=
  ⟨rfl, by norm_num, by decide⟩

theorem tempSuggestionList_no_vent (ts : List ℚ) :
    (tempSuggestionList ts).countP Msg.isVentilation = 0 := by
  simp only [tempSuggestionList]
  split_ifs <;> simp [Msg.isVentilation]

theorem humiditySuggestionList_no_vent (hs : List ℚ) :
    (humiditySuggestionList hs).countP Msg.isVentilation = 0 := by
  simp only [humiditySuggestionList]
  split_ifs <;> simp [Msg.isVentilation]

theorem lightSuggestionList_no_vent (ls : List ℚ) :
    (lightSuggestionList ls).countP Msg.isVentilation = 0 := by
  simp only [lightSuggestionList]
  split_ifs <;> simp [Msg.isVentilation]

theorem co2SuggestionList_vent_count (observations : List Observation) :
    (co2SuggestionList observations).countP Msg.isVentilation =
      if 5 ≤ (co2_levels observations).countP (fun l => l = CO2.high)
         ∧ 5 ≤ maxHighRun observations
      then 1 else 0 := by
  simp only [co2SuggestionList, check_consecutive_high_co2]
  have haccept : ((if CO2.low ∈ co2_levels observations
        ∨ CO2.medium ∈ co2_levels observations
      then [Msg.co2Acceptable] else []).countP Msg.isVentilation) = 0 := by
    split_ifs <;> simp [Msg.isVentilation]
  by_cases hco : co2_levels observations = []
  · rw [if_neg (by simp [hco])]
    simp [hco]
  · rw [if_pos hco, List.countP_append, haccept]
    by_cases hcount : 5 ≤ (co2_levels observations).countP (fun l => l = CO2.high)
    · by_cases hrun : 5 ≤ maxHighRun observations
      · have hne : maxHighRun observations ≠ 0 := by omega
        rw [if_pos hcount]
        simp only [if_pos hrun]
        rw [if_pos hne, if_pos ⟨hcount, hrun⟩]
        simp [Msg.isVentilation]
      · rw [if_pos hcount]
        simp only [if_neg hrun]
        rw [if_neg (by simp : ¬ (0 : Nat) ≠ 0), if_neg (fun h => absurd h.2 hrun)]
        simp
    · rw [if_neg hcount, if_neg (fun h => absurd h.1 hcount)]
      simp

/-- Claim C5 (confirmed): the high-CO2 anomaly (stating the longest run) and
the ventilation suggestion are emitted exactly when at least five non-missing
CO2 readings are 'high' AND the longest run of consecutive 'high' readings in
the ordered observation sequence is at least five.  (An observation with a
missing CO2 level interrupts a run.) -/
theorem C5_high_co2_anomaly (observations : List Observation) :
    ((analyze_observations observations).anomalies.filter Msg.isCO2Consecutive =
      if 5 ≤ (co2_levels observations).countP (fun l => l = CO2.high)
         ∧ 5 ≤ maxHighRun observations
      then [Msg.co2ConsecutiveHigh (maxHighRun observations)] else [])
    ∧ ((analyze_observations observations).suggestions.countP Msg.isVentilation =
      if 5 ≤ (co2_levels observations).countP (fun l => l = CO2.high)
         ∧ 5 ≤ maxHighRun observations
      then 1 else 0) := by
  constructor
  · have ha : (analyze_observations observations).anomalies
        = humidityAnomalyList observations ++ co2AnomalyList observations := rfl
    rw [ha, List.filter_append, humidityAnomalyList_no_co2, List.nil_append]
    simp only [co2AnomalyList, check_consecutive_high_co2]
    by_cases hco : co2_levels observations = []
    · rw [if_neg (by simp [hco])]
      simp [hco]
    · rw [if_pos hco]
      by_cases hcount : 5 ≤ (co2_levels observations).countP (fun l => l = CO2.high)
      · by_cases hrun : 5 ≤ maxHighRun observations
        · have hne : maxHighRun observations ≠ 0 := by omega
          rw [if_pos hcount]
          simp only [if_pos hrun]
          rw [if_pos hne, if_pos ⟨hcount, hrun⟩]
          simp [Msg.isCO2Consecutive]
        · rw [if_pos hcount]
          simp only [if_neg hrun]
          rw [if_neg (by simp : ¬ (0 : Nat) ≠ 0), if_neg (fun h => absurd h.2 hrun)]
          simp
      · rw [if_neg hcount, if_neg (fun h => absurd h.1 hcount)]
        simp
  · have hs : (analyze_observations observations).suggestions
        = tempSuggestionList (temps observations) ++
          humiditySuggestionList (humidities observations) ++
          co2SuggestionList observations ++
          lightSuggestionList (light_hours observations) := rfl
    rw [hs, List.countP_append, List.countP_append, List.countP_append,
      tempSuggestionList_no_vent, humiditySuggestionList_no_vent,
      lightSuggestionList_no_vent, co2SuggestionList_vent_count]
    simp

/-- Claim C7 (confirmed): with at least two harvests, the flush-progression
trend note is the "normal decline" note exactly when the second yield is
strictly below 50% of the first, the "strong performance" note exactly when
it is strictly above 80% of the first, and absent in the closed dead zone
between the two thresholds. -/
theorem C7_flush_progression (h0 h1 : Harvest) (rest : List Harvest) (batch : Batch)
    (all_harvests : List Harvest) (all_batches : List Batch) :
    (analyze_harvests (h0 :: h1 :: rest) batch all_harvests all_batches).trends =
      if h1.flush_yield_kg < h0.flush_yield_kg * (1/2) then
        [Msg.secondFlushDecline h1.flush_yield_kg h0.flush_yield_kg]
      else if h1.flush_yield_kg > h0.flush_yield_kg * (4/5) then
        [Msg.strongSecondFlush h1.flush_yield_kg h0.flush_yield_kg]
      else [] := by
  simp only [analyze_harvests]
  rw [if_neg (by simp : ¬(h0 :: h1 :: rest : List Harvest) = [])]
  simp

theorem generate_summary_projection (batch : Batch) (observations : List Observation)
    (harvests : List Harvest) (w a s : List Msg) :
    (generate_summary batch observations harvests w a s).filter SummaryPart.isProjection =
      (match harvests with
       | [h] => [SummaryPart.projectedTotal (h.flush_yield_kg * (5/2))
                  (h.flush_yield_kg * (5/2) * (6/5))]
       | _ => []) := by
  unfold generate_summary
  by_cases he : observations = [] ∧ harvests = []
  · rw [if_pos he]
    rcases he with ⟨-, he2⟩
    subst he2
    simp [SummaryPart.isProjection]
  · rw [if_neg he]
    rcases w with _ | ⟨w0, wt⟩ <;> rcases a with _ | ⟨a0, at'⟩ <;>
      rcases s with _ | ⟨s0, st⟩ <;>
      rcases harvests with _ | ⟨g0, gt⟩ <;>
      (try rcases gt with _ | ⟨g1, gt2⟩) <;>
      simp [List.filter_append, SummaryPart.isProjection,
        apply_ite (List.filter SummaryPart.isProjection), ite_self]

unseal Rat.mul Rat.add Rat.inv Rat.sub Rat.ofScientific in
/-- Claim C6 (confirmed): with exactly one harvest of flush yield f, the
harvest analyzer emits the two projection trends (second flush 0.65·f with
upper bound 0.8·f, and total f + 0.65·f + 0.6·(0.65·f) with a +20% upper
bound), and the summary carries a projected total of 2.5·f with a +20% upper
bound; concretely for f = 2.0 the projections are 1.30 and 4.08 and the
summary projection renders as "5.0-6.0". -/
theorem C6_single_harvest_projection (h : Harvest) (batch : Batch)
    (all_harvests : List Harvest) (all_batches : List Batch)
    (observations : List Observation) (w a s : List Msg) :
    ((analyze_harvests [h] batch all_harvests all_batches).trends =
      [Msg.firstFlushPromise h.flush_yield_kg (h.flush_yield_kg * (13/20))
        (h.flush_yield_kg * (4/5)),
       Msg.projectedTotalYield
        (h.flush_yield_kg + h.flush_yield_kg * (13/20) + h.flush_yield_kg * (13/20) * (3/5))
        ((h.flush_yield_kg + h.flush_yield_kg * (13/20) + h.flush_yield_kg * (13/20) * (3/5))
          * (6/5))])
    ∧ ((generate_summary batch observations [h] w a s).filter SummaryPart.isProjection =
        [SummaryPart.projectedTotal (h.flush_yield_kg * (5/2))
          (h.flush_yield_kg * (5/2) * (6/5))])
    ∧ ((analyze_harvests [⟨1, 1, 2⟩] ⟨1, "straw"⟩ [] []).trends =
        [Msg.firstFlushPromise 2 (13/10) (8/5),
         Msg.projectedTotalYield (102/25) (612/125)])
    ∧ ((generate_summary ⟨1, "straw"⟩ [] [⟨1, 1, 2⟩] [] [] []).filter
        SummaryPart.isProjection = [SummaryPart.projectedTotal 5 6])
    ∧ rangeText 5 6 = "5.0-6.0" := by
  refine ⟨?_, ?_, by decide, by decide, by decide⟩
  · simp only [analyze_harvests]
    rw [if_neg (by simp : ¬([h] : List Harvest) = [])]
    simp [mul_comm]
  · rw [generate_summary_projection]

theorem mean_perm {l1 l2 : List ℚ} (h : List.Perm l1 l2) : mean l1 = mean l2 := by
  unfold mean
  rw [h.sum_eq, h.length_eq]

theorem mean_singleton (y : ℚ) : mean [y] = y := by
  simp [mean]

/-- Claim C9 (confirmed): the peer set of the first-flush comparison is the
batches whose substrate type equals the analyzed batch's own, so the batch
itself belongs to it; hence when the batch is the only one with its substrate
type, its flush-1 harvest is compared against itself and (with a non-negative
yield and the DB's unique flush numbers) the early-yield-underperformance
warning can never fire. -/
theorem C9_self_peer_no_underperformance
    (harvests : List Harvest) (batch : Batch)
    (all_harvests : List Harvest) (all_batches : List Batch) (h0 : Harvest)
    (hmem : batch ∈ all_batches)
    (honly : ∀ b ∈ all_batches, b.substrate_type = batch.substrate_type →
      b.batch_id = batch.batch_id)
    (hperm : List.Perm (all_harvests.filter (fun h => h.batch_id = batch.batch_id)) harvests)
    (hnodup : (harvests.map (·.flush_number)).Nodup)
    (hhead : harvests.head? = some h0)
    (hflush : h0.flush_number = 1)
    (hpos : 0 ≤ h0.flush_yield_kg) :
    batch ∈ all_batches.filter (fun b => b.substrate_type = batch.substrate_type)
    ∧ (analyze_harvests harvests batch all_harvests all_batches).warnings = [] := by
  refine ⟨List.mem_filter.mpr ⟨hmem, by simp⟩, ?_⟩
  rcases harvests with _ | ⟨x, rest⟩
  · simp at hhead
  · have hx : x = h0 := by simpa using hhead
    subst hx
    have hidiff : ∀ hh : Harvest,
        hh.batch_id ∈ (all_batches.filter
          (fun b => b.substrate_type = batch.substrate_type)).map (fun b => b.batch_id)
        ↔ hh.batch_id = batch.batch_id := by
      intro hh
      constructor
      · intro hmem'
        rcases List.mem_map.mp hmem' with ⟨b, hb, hbid⟩
        rcases List.mem_filter.mp hb with ⟨hbal, hsub⟩
        rw [← hbid]
        exact honly b hbal (by simpa using hsub)
      · intro heq
        rw [heq]
        exact List.mem_map.mpr ⟨batch, List.mem_filter.mpr ⟨hmem, by simp⟩, rfl⟩
    have hfe : all_harvests.filter (fun hh => hh.batch_id ∈ (all_batches.filter
          (fun b => b.substrate_type = batch.substrate_type)).map (fun b => b.batch_id))
        = all_harvests.filter (fun hh => hh.batch_id = batch.batch_id) := by
      apply List.filter_congr
      intro hh _
      simp [hidiff hh]
    have hrestFlush : ∀ hh ∈ rest, ¬ hh.flush_number = 1 := by
      intro hh hhr h1
      have : x.flush_number ∉ rest.map (fun h => h.flush_number) := by
        have := hnodup
        simp only [List.map_cons, List.nodup_cons] at this
        exact this.1
      exact this (by rw [hflush]; exact List.mem_map.mpr ⟨hh, hhr, h1⟩)
    have hfy : flushOneYields (x :: rest) = [x.flush_yield_kg] := by
      unfold flushOneYields
      rw [List.filter_cons_of_pos (by simp [hflush])]
      rw [List.filter_eq_nil_iff.mpr (by intro a ha; simp [hrestFlush a ha])]
      simp
    have hpermf : List.Perm (flushOneYields (all_harvests.filter
          (fun hh => hh.batch_id = batch.batch_id))) [x.flush_yield_kg] := by
      rw [← hfy]
      exact (hperm.filter _).map _
    simp only [analyze_harvests]
    rw [if_neg (by simp : ¬(x :: rest : List Harvest) = [])]
    rw [hfe]
    have hne : all_harvests.filter (fun hh => hh.batch_id = batch.batch_id) ≠ [] := by
      intro h
      have := hperm.length_eq
      rw [h] at this
      simp at this
    rw [if_pos hne]
    have hfy1ne : flushOneYields (all_harvests.filter
        (fun hh => hh.batch_id = batch.batch_id)) ≠ [] := by
      intro h
      have := hpermf.length_eq
      rw [h] at this
      simp at this
    simp only [List.head?_cons, Option.some.injEq]
    rw [if_pos ⟨hfy1ne, hflush⟩]
    have hmean : mean (flushOneYields (all_harvests.filter
        (fun hh => hh.batch_id = batch.batch_id))) = x.flush_yield_kg := by
      rw [mean_perm hpermf, mean_singleton]
    rw [hmean]
    rw [if_neg (by intro h; nlinarith)]

/-- Witness for C9 at a one-batch, one-harvest database. -/
theorem C9_witness :
    (⟨1, "straw"⟩ : Batch) ∈ ([⟨1, "straw"⟩] : List Batch).filter
      (fun b => b.substrate_type = (⟨1, "straw"⟩ : Batch).substrate_type)
    ∧ (analyze_harvests [⟨1, 1, 2⟩] ⟨1, "straw"⟩ [⟨1, 1, 2⟩] [⟨1, "straw"⟩]).warnings = [] :=
  C9_self_peer_no_underperformance [⟨1, 1, 2⟩] ⟨1, "straw"⟩ [⟨1, 1, 2⟩] [⟨1, "straw"⟩]
    ⟨1, 1, 2⟩ (by decide) (by decide) (by decide) (by decide) (by decide) (by decide)
    (by decide)

/-- Claim C3 (confirmed): fewer than two identifiers yields exactly the
"at least 2 batches" insight with both data lists empty; two or more
identifiers of which at least one does not resolve yields exactly one
"batches not found" insight whose missing set is precisely the unresolved
identifiers, with both data lists empty (no yield or condition entries are
computed).  The embedding is a total function, so no exception can occur. -/
theorem C3_malformed_comparison_input (batch_ids : List Nat) (db : DB) :
    (batch_ids.length < 2 →
      compare_batches batch_ids db = ⟨[], [], [.atLeastTwoRequired]⟩)
    ∧ ((db.batches.map (fun b => b.batch_id)).Nodup → 2 ≤ batch_ids.length →
      (∃ i ∈ batch_ids, i ∉ db.batches.map (fun b => b.batch_id)) →
      ((compare_batches batch_ids db).yield_comparison = []
       ∧ (compare_batches batch_ids db).average_conditions = []
       ∧ ∃ missing : Finset Nat,
           (compare_batches batch_ids db).insights = [.someBatchesNotFound missing]
           ∧ ∀ i, i ∈ missing ↔ i ∈ batch_ids ∧ i ∉ db.batches.map (fun b => b.batch_id))) := by
  constructor
  · intro hlen
    simp only [compare_batches]
    rw [if_pos hlen]
  · rintro hnodup hlen2 ⟨m, hmids, hmdb⟩
    have hresolved : ∀ i, i ∈ (db.batches.filter
          (fun b => b.batch_id ∈ batch_ids)).map (fun b => b.batch_id)
        ↔ i ∈ db.batches.map (fun b => b.batch_id) ∧ i ∈ batch_ids := by
      intro i
      constructor
      · intro hi
        rcases List.mem_map.mp hi with ⟨b, hb, rfl⟩
        rcases List.mem_filter.mp hb with ⟨hbdb, hbin⟩
        exact ⟨List.mem_map.mpr ⟨b, hbdb, rfl⟩, by simpa using hbin⟩
      · rintro ⟨hidb, hiin⟩
        rcases List.mem_map.mp hidb with ⟨b, hb, rfl⟩
        exact List.mem_map.mpr ⟨b, List.mem_filter.mpr ⟨hb, by simpa using hiin⟩, rfl⟩
    have hnodup2 : ((db.batches.filter
        (fun b => b.batch_id ∈ batch_ids)).map (fun b => b.batch_id)).Nodup :=
      List.Nodup.sublist ((List.filter_sublist _).map _) hnodup
    have hRS : ((db.batches.filter
          (fun b => b.batch_id ∈ batch_ids)).map (fun b => b.batch_id)).toFinset
        ⊂ batch_ids.toFinset := by
      rw [Finset.ssubset_iff_of_subset]
      · refine ⟨m, List.mem_toFinset.mpr hmids, ?_⟩
        intro hmem
        exact hmdb ((hresolved m).mp (List.mem_toFinset.mp hmem)).1
      · intro i hi
        exact List.mem_toFinset.mpr ((hresolved i).mp (List.mem_toFinset.mp hi)).2
    have hlt : (db.batches.filter
        (fun b => b.batch_id ∈ batch_ids)).length < batch_ids.length := by
      calc (db.batches.filter (fun b => b.batch_id ∈ batch_ids)).length
          = ((db.batches.filter
              (fun b => b.batch_id ∈ batch_ids)).map (fun b => b.batch_id)).length := by
            rw [List.length_map]
        _ = ((db.batches.filter
              (fun b => b.batch_id ∈ batch_ids)).map (fun b => b.batch_id)).toFinset.card :=
            (List.toFinset_card_of_nodup hnodup2).symm
        _ < batch_ids.toFinset.card := Finset.card_lt_card hRS
        _ ≤ batch_ids.length := List.toFinset_card_le batch_ids
    have hbr : compare_batches batch_ids db
        = ⟨[], [], [.someBatchesNotFound (batch_ids.toFinset \
            ((db.batches.filter (fun b => b.batch_id ∈ batch_ids)).map
              (fun b => b.batch_id)).toFinset)]⟩ := by
      simp only [compare_batches]
      rw [if_neg (by omega), if_pos (by omega)]
    rw [hbr]
    refine ⟨rfl, rfl, _, rfl, ?_⟩
    intro i
    rw [Finset.mem_sdiff, List.mem_toFinset, List.mem_toFinset]
    constructor
    · rintro ⟨hiin, hinot⟩
      refine ⟨hiin, ?_⟩
      intro hidb
      exact hinot ((hresolved i).mpr ⟨hidb, hiin⟩)
    · rintro ⟨hiin, hinot⟩
      refine ⟨hiin, ?_⟩
      intro hmem
      exact hinot ((hresolved i).mp hmem).1

/-- One-batch database used to witness C3. -/
def dbC3 : DB := ⟨[⟨1, "straw"⟩], [], []⟩

/-- Witness for C3: a single identifier, and a pair of identifiers of which
2 is unresolved. -/
theorem C3_witness :
    (compare_batches [1] dbC3 = ⟨[], [], [.atLeastTwoRequired]⟩)
    ∧ ∃ missing : Finset Nat,
        (compare_batches [1, 2] dbC3).insights = [.someBatchesNotFound missing]
        ∧ 2 ∈ missing ∧ 1 ∉ missing := by
  refine ⟨(C3_malformed_comparison_input [1] dbC3).1 (by decide), ?_⟩
  obtain ⟨-, -, missing, hins, hiff⟩ :=
    (C3_malformed_comparison_input [1, 2] dbC3).2 (by decide) (by decide)
      ⟨2, by decide, by decide⟩
  exact ⟨missing, hins, (hiff 2).mpr ⟨by decide, by decide⟩,
    fun hm => ((hiff 1).mp hm).2 (by decide)⟩

theorem filter_key_length_one {α β : Type} [DecidableEq β] (f : α → β) (l : List α)
    (k : β) (hnodup : (l.map f).Nodup) (hex : ∃ b ∈ l, f b = k) :
    (l.filter (fun x => f x = k)).length = 1 := by
  induction l with
  | nil => simp at hex
  | cons a t ih =>
    rw [List.map_cons, List.nodup_cons] at hnodup
    by_cases hak : f a = k
    · rw [List.filter_cons_of_pos (by simpa using hak)]
      have ht : t.filter (fun x => f x = k) = [] := by
        rw [List.filter_eq_nil_iff]
        intro b hb hbk
        exact hnodup.1 (hak ▸ (by simpa using hbk : f b = k) ▸ List.mem_map.mpr ⟨b, hb, rfl⟩)
      rw [ht]
      rfl
    · rw [List.filter_cons_of_neg (by simpa using hak)]
      rcases hex with ⟨b, hb, hbk⟩
      rcases List.mem_cons.mp hb with rfl | hbt
      · exact absurd hbk hak
      · exact ih hnodup.2 ⟨b, hbt, hbk⟩

/-- Claim C10 (confirmed): `compare_batches` does not deduplicate its input;
a list of n ≥ 2 copies of one existing batch id passes the length check but
fails resolution (1 resolved batch vs n identifiers), returning empty data
lists and a single "batches not found" insight whose missing set is empty. -/
theorem C10_duplicate_ids (db : DB) (k n : Nat)
    (hn : 2 ≤ n)
    (hnodup : (db.batches.map (fun b => b.batch_id)).Nodup)
    (hex : ∃ b ∈ db.batches, b.batch_id = k) :
    compare_batches (List.replicate n k) db = ⟨[], [], [.someBatchesNotFound ∅]⟩ := by
  have hfc : db.batches.filter (fun b => b.batch_id ∈ List.replicate n k)
      = db.batches.filter (fun b => b.batch_id = k) := by
    apply List.filter_congr
    intro b _
    simp [List.mem_replicate]
    omega
  have hlen1 : (db.batches.filter (fun b => b.batch_id = k)).length = 1 :=
    filter_key_length_one (fun b => b.batch_id) db.batches k hnodup hex
  have hmapk : (db.batches.filter (fun b => b.batch_id = k)).map (fun b => b.batch_id)
      = [k] := by
    rcases List.length_eq_one.mp hlen1 with ⟨b, hb⟩
    have hbk : b.batch_id = k := by
      have : b ∈ db.batches.filter (fun x => x.batch_id = k) := by
        rw [hb]; exact List.mem_singleton.mpr rfl
      simpa using (List.mem_filter.mp this).2
    rw [hb, List.map_singleton, hbk]
  simp only [compare_batches]
  rw [hfc]
  rw [if_neg (by simp [List.length_replicate]; omega),
    if_pos (by rw [hlen1, List.length_replicate]; omega)]
  rw [hmapk]
  rw [List.toFinset_replicate_of_ne_zero (by omega)]
  simp

/-- One-batch database used to witness C10. -/
def dbC10 : DB := ⟨[⟨1, "straw"⟩], [], []⟩

/-- Witness for C10: the identifier list [1, 1] against a database holding
exactly batch 1. -/
theorem C10_witness :
    compare_batches (List.replicate 2 1) dbC10 = ⟨[], [], [.someBatchesNotFound ∅]⟩ :=
  C10_duplicate_ids dbC10 1 2 (by decide) (by decide) ⟨⟨1, "straw"⟩, by decide, rfl⟩

/-- Two-batch database used for C8: batch 1 has one temperature reading of
exactly 0.0 °C (mean 0), batch 2 has one reading of 22.0 °C. -/
def dbC8 : DB :=
  ⟨[⟨1, "straw"⟩, ⟨2, "oak"⟩], [],
   [⟨1, 0, some 0, none, none, none⟩, ⟨2, 0, some 22, some 85, none, none⟩]⟩

unseal Rat.mul Rat.add Rat.inv Rat.sub Rat.ofScientific in
/-- Counterexample for C8 as stated: batch 1 has a non-missing temperature
reading (the list of readings is `[0]`), yet its `avg_temperature` entry is
null, because `round(avg_temp, 1) if avg_temp else None` treats the mean 0.0
as falsy. -/
theorem C8_counterexample :
    tempsOfBatch dbC8 1 = [0]
    ∧ (compare_batches [1, 2] dbC8).average_conditions.map
        (fun c => (c.batch_id, c.avg_temperature)) = [(1, none), (2, some 22)] :=
  ⟨by decide, by decide⟩

/-- Claim C8 (corrected): an `average_conditions` entry's `avg_temperature`
is null iff the batch has no non-missing temperature readings OR their mean
is exactly 0 (Python float truthiness in `round(avg, 1) if avg else None`);
otherwise it is the mean rounded (half-to-even) to one decimal place; same
for `avg_humidity`; and in the successful branch `average_conditions` is
exactly one such entry per resolved batch. -/
theorem C8_average_conditions_null_iff (db : DB) (b : Batch) :
    ((avgCondFor db b).avg_temperature = none ↔
      tempsOfBatch db b.batch_id = [] ∨ mean (tempsOfBatch db b.batch_id) = 0)
    ∧ (tempsOfBatch db b.batch_id ≠ [] → mean (tempsOfBatch db b.batch_id) ≠ 0 →
      (avgCondFor db b).avg_temperature = some (round1 (mean (tempsOfBatch db b.batch_id))))
    ∧ ((avgCondFor db b).avg_humidity = none ↔
      humsOfBatch db b.batch_id = [] ∨ mean (humsOfBatch db b.batch_id) = 0)
    ∧ (humsOfBatch db b.batch_id ≠ [] → mean (humsOfBatch db b.batch_id) ≠ 0 →
      (avgCondFor db b).avg_humidity = some (round1 (mean (humsOfBatch db b.batch_id))))
    ∧ (∀ batch_ids : List Nat, ¬ batch_ids.length < 2 →
      (db.batches.filter (fun x => x.batch_id ∈ batch_ids)).length = batch_ids.length →
      (compare_batches batch_ids db).average_conditions =
        (db.batches.filter (fun x => x.batch_id ∈ batch_ids)).map (avgCondFor db)) := by
  refine ⟨?_, ?_, ?_, ?_, ?_⟩
  · simp only [avgCondFor]
    split_ifs with h
    · simp
      tauto
    · simp
      tauto
  · intro h1 h2
    simp only [avgCondFor]
    rw [if_pos ⟨h1, h2⟩]
  · simp only [avgCondFor]
    split_ifs with h
    · simp
      tauto
    · simp
      tauto
  · intro h1 h2
    simp only [avgCondFor]
    rw [if_pos ⟨h1, h2⟩]
  · intro batch_ids hlen hres
    simp only [compare_batches]
    rw [if_neg hlen, if_neg (by omega)]

unseal Rat.mul Rat.add Rat.inv Rat.sub Rat.ofScientific in
/-- Witness for C8 on `dbC8`: batch 2's readings are non-empty with non-zero
mean, and the entry equals the rounded mean; the resolved pair [1, 2] gives
one entry per batch. -/
theorem C8_witness :
    (tempsOfBatch dbC8 2 ≠ [] ∧ mean (tempsOfBatch dbC8 2) ≠ 0
      ∧ (avgCondFor dbC8 ⟨2, "oak"⟩).avg_temperature
          = some (round1 (mean (tempsOfBatch dbC8 2))))
    ∧ (compare_batches [1, 2] dbC8).average_conditions =
        (dbC8.batches.filter (fun x => x.batch_id ∈ [1, 2])).map (avgCondFor dbC8) :=
  ⟨⟨by decide, by decide,
    (C8_average_conditions_null_iff dbC8 ⟨2, "oak"⟩).2.1 (by decide) (by decide)⟩,
   (C8_average_conditions_null_iff dbC8 ⟨2, "oak"⟩).2.2.2.2 [1, 2] (by decide) (by decide)⟩

theorem humGE_sorted_head (l : List AvgCond) (x : AvgCond) (rest : List AvgCond)
    (hs : l.insertionSort humGE = x :: rest) :
    x ∈ l ∧ ∀ c ∈ l, c.avg_humidity.getD 0 ≤ x.avg_humidity.getD 0 := by
  have hsorted := List.sorted_insertionSort humGE l
  have hperm := List.perm_insertionSort humGE l
  rw [hs] at hsorted hperm
  refine ⟨hperm.subset (List.mem_cons_self x rest), ?_⟩
  intro c hc
  rcases List.mem_cons.mp (hperm.mem_iff.mpr hc) with rfl | hcr
  · exact le_refl _
  · exact (List.pairwise_cons.mp hsorted).1 c hcr

theorem humGE_sorted_getLast (l : List AvgCond) (y : AvgCond)
    (hy : (l.insertionSort humGE).getLast? = some y) :
    y ∈ l ∧ ∀ c ∈ l, y.avg_humidity.getD 0 ≤ c.avg_humidity.getD 0 := by
  have hsorted := List.sorted_insertionSort humGE l
  have hperm := List.perm_insertionSort humGE l
  rw [List.getLast?_eq_head?_reverse] at hy
  rcases hrev : (l.insertionSort humGE).reverse with _ | ⟨y', t⟩
  · rw [hrev] at hy
    cases hy
  · rw [hrev] at hy
    have hy' : y' = y := by simpa using hy
    subst hy'
    have hrsorted : List.Pairwise (fun a b => humGE b a)
        ((l.insertionSort humGE).reverse) := List.pairwise_reverse.mpr hsorted
    rw [hrev] at hrsorted
    have hmem : ∀ c, c ∈ l ↔ c ∈ y' :: t := by
      intro c
      rw [← hrev, List.mem_reverse]
      exact hperm.mem_iff.symm
    refine ⟨(hmem y').mpr (List.mem_cons_self y' t), ?_⟩
    intro c hc
    rcases List.mem_cons.mp ((hmem c).mp hc) with rfl | hcr
    · exact le_refl _
    · exact (List.pairwise_cons.mp hrsorted).1 c hcr

theorem outperformInsight_no_humcorr (ys : List YieldComp) (ac : List AvgCond) :
    (outperformInsight ys ac).filter Msg.isHumidityCorrelation = [] := by
  simp only [outperformInsight]
  cases hb : (ys.insertionSort yieldGE).head? <;>
    cases hw : (ys.insertionSort yieldGE).getLast? <;>
    simp only [] <;>
    first
    | rfl
    | (split_ifs <;> simp [Msg.isHumidityCorrelation])

theorem tempVarianceInsight_no_humcorr (db : DB) (batches : List Batch) :
    (tempVarianceInsight db batches).filter Msg.isHumidityCorrelation = [] := by
  simp only [tempVarianceInsight]
  split_ifs with h
  · cases hb : ((batches.filterMap (fun b =>
        let ts := tempsOfBatch db b.batch_id
        if ts.length > 1 then some (b.batch_id, listMax ts - listMin ts)
        else none)).insertionSort varLE).head? <;>
      simp [hb, Msg.isHumidityCorrelation]
  · rfl

theorem humidityInsight_eq (ac : List AvgCond)
    (h2 : 2 ≤ (ac.filter (fun c => truthyQ c.avg_humidity)).length) :
    humidityInsight ac =
      [Msg.higherHumidityCorrelates
        (listMax ((ac.filter (fun c => truthyQ c.avg_humidity)).map
          (fun c => c.avg_humidity.getD 0)))
        (listMin ((ac.filter (fun c => truthyQ c.avg_humidity)).map
          (fun c => c.avg_humidity.getD 0)))] := by
  have hlen : ac.length ≥ 2 := le_trans h2 (List.length_filter_le _ _)
  obtain ⟨x, rest, hcons⟩ : ∃ x rest,
      (ac.filter (fun c => truthyQ c.avg_humidity)).insertionSort humGE = x :: rest := by
    rcases hs : (ac.filter (fun c => truthyQ c.avg_humidity)).insertionSort humGE
        with _ | ⟨x, r⟩
    · exfalso
      have := (List.perm_insertionSort humGE
        (ac.filter (fun c => truthyQ c.avg_humidity))).length_eq
      rw [hs] at this
      simp at this
      omega
    · exact ⟨x, r, hs⟩
  have hslen : (x :: rest).length
      = (ac.filter (fun c => truthyQ c.avg_humidity)).length := by
    rw [← hcons]
    exact (List.perm_insertionSort humGE _).length_eq
  rcases hlast : (x :: rest).getLast? with _ | y
  · rw [List.getLast?_eq_none_iff] at hlast
    cases hlast
  · have hx := humGE_sorted_head (ac.filter (fun c => truthyQ c.avg_humidity)) x rest hcons
    have hy := humGE_sorted_getLast (ac.filter (fun c => truthyQ c.avg_humidity)) y
      (by rw [hcons]; exact hlast)
    have hmax : listMax ((ac.filter (fun c => truthyQ c.avg_humidity)).map
        (fun c => c.avg_humidity.getD 0)) = x.avg_humidity.getD 0 := by
      apply listMax_eq_of
      · exact List.mem_map.mpr ⟨x, hx.1, rfl⟩
      · rintro v hv
        rcases List.mem_map.mp hv with ⟨c, hc, rfl⟩
        exact hx.2 c hc
    have hmin : listMin ((ac.filter (fun c => truthyQ c.avg_humidity)).map
        (fun c => c.avg_humidity.getD 0)) = y.avg_humidity.getD 0 := by
      apply listMin_eq_of
      · exact List.mem_map.mpr ⟨y, hy.1, rfl⟩
      · rintro v hv
        rcases List.mem_map.mp hv with ⟨c, hc, rfl⟩
        exact hy.2 c hc
    simp only [humidityInsight]
    rw [if_pos hlen, hcons, if_pos (by rw [hslen]; exact h2), hmax, hmin]
    simp only [List.head?_cons, hlast]

/-- Claim C1 (corrected): in a resolved comparison, whenever at least two
batches have a TRUTHY (non-null and non-zero) rounded average humidity,
exactly one humidity-vs-yield insight is emitted, comparing the highest and
lowest such average-humidity values by their literal percentages; its shape
is the fixed "higher humidity correlates with better yields" narrative and
no hypothesis about yields is involved, so it is asserted regardless of
whether the high-humidity batch has the higher total yield.  The original
"non-null" qualification fails: an entry whose rounded average humidity is
exactly 0.0 is non-null yet excluded by the truthiness filter on line 452. -/
theorem C1_humidity_insight_truthy (batch_ids : List Nat) (db : DB)
    (hlen : ¬ batch_ids.length < 2)
    (hres : (db.batches.filter (fun b => b.batch_id ∈ batch_ids)).length = batch_ids.length)
    (hqual : 2 ≤ (((db.batches.filter (fun b => b.batch_id ∈ batch_ids)).map
        (avgCondFor db)).filter (fun c => truthyQ c.avg_humidity)).length) :
    (compare_batches batch_ids db).insights.filter Msg.isHumidityCorrelation =
      [Msg.higherHumidityCorrelates
        (listMax ((((db.batches.filter (fun b => b.batch_id ∈ batch_ids)).map
            (avgCondFor db)).filter (fun c => truthyQ c.avg_humidity)).map
          (fun c => c.avg_humidity.getD 0)))
        (listMin ((((db.batches.filter (fun b => b.batch_id ∈ batch_ids)).map
            (avgCondFor db)).filter (fun c => truthyQ c.avg_humidity)).map
          (fun c => c.avg_humidity.getD 0)))] := by
  simp only [compare_batches]
  rw [if_neg hlen, if_neg (by omega)]
  rw [if_pos (by rw [List.length_map, hres]; omega :
    ((db.batches.filter (fun b => b.batch_id ∈ batch_ids)).map (yieldCompFor db)).length ≥ 2)]
  rw [humidityInsight_eq _ hqual]
  simp only [List.filter_append, outperformInsight_no_humcorr,
    tempVarianceInsight_no_humcorr]
  simp [Msg.isHumidityCorrelation]

/-- Two-batch database used to witness C1: average humidities 84% and 86%. -/
def dbC1w : DB :=
  ⟨[⟨1, "straw"⟩, ⟨2, "oak"⟩], [],
   [⟨1, 0, none, some 84, none, none⟩, ⟨2, 0, none, some 86, none, none⟩]⟩

unseal Rat.mul Rat.add Rat.inv Rat.sub Rat.ofScientific in
/-- Witness for C1 on `dbC1w`. -/
theorem C1_witness :
    (compare_batches [1, 2] dbC1w).insights.filter Msg.isHumidityCorrelation =
      [Msg.higherHumidityCorrelates
        (listMax ((((dbC1w.batches.filter (fun b => b.batch_id ∈ [1, 2])).map
            (avgCondFor dbC1w)).filter (fun c => truthyQ c.avg_humidity)).map
          (fun c => c.avg_humidity.getD 0)))
        (listMin ((((dbC1w.batches.filter (fun b => b.batch_id ∈ [1, 2])).map
            (avgCondFor dbC1w)).filter (fun c => truthyQ c.avg_humidity)).map
          (fun c => c.avg_humidity.getD 0)))] :=
  C1_humidity_insight_truthy [1, 2] dbC1w (by decide) (by decide) (by decide)

/-- Two-batch database refuting C1 as stated: batch 1's humidity readings
average 0.04%, which rounds to an entry of 0.0 (non-null); batch 2 averages
85%. -/
def dbC1 : DB :=
  ⟨[⟨1, "straw"⟩, ⟨2, "oak"⟩], [],
   [⟨1, 0, none, some (1/25), none, none⟩, ⟨2, 0, none, some 85, none, none⟩]⟩

unseal Rat.mul Rat.add Rat.inv Rat.sub Rat.ofScientific in
/-- Counterexample for C1 as stated: both batches have a NON-NULL average
humidity entry, yet no humidity-vs-yield insight is emitted (the whole
insight list is empty), because the 0.0 entry is falsy. -/
theorem C1_counterexample :
    ((compare_batches [1, 2] dbC1).average_conditions.countP
      (fun c => c.avg_humidity.isSome)) = 2
    ∧ (compare_batches [1, 2] dbC1).insights = [] :=
  ⟨by decide, by decide⟩
